import Mathlib

/-!
Verification development for the `github-workflow-demo` repository.

The repository contains two near-duplicate Python scripts,
`create_powerpoint_final.py` and `create_powerpoint_improved.py`, each
exposing a single procedure `create_presentation()` that builds a fixed
slide deck with the python-pptx library and saves it to a fixed file name.

This file gives a shallow embedding of both scripts:

* The document model (`Paragraph`, `TextFrame`, `TableCell`, `Table`,
  `Shape`, `Slide`, `Presentation`) mirrors the python-pptx entities the
  scripts touch.  Lengths are modelled in inch units as rationals (the
  library converts inches to EMU internally; the scripts only ever pass
  inch values).  Font sizes are in points.
* Each script's slide-by-slide construction is translated statement by
  statement into per-slide definitions; python-pptx mutations
  (`tf.clear()`, `add_paragraph`, `.text =`, cell/table updates) become
  the corresponding pure updates.
* The statements that touch the `Presentation` object itself
  (`prs.slide_width = ...`, `prs.slide_height = ...`,
  `prs.slides.add_slide(...)`) are recorded as an explicit operation
  trace (`PrsOp`), folded into the final document, so that temporal
  properties ("the dimensions are set before any slide is added") can be
  stated about the trace.
* The tail of each script (`prs.save(...)` followed by `print(...)`
  statements) is modelled by `runScript`, which threads an environment
  (a file system, a serializer for the underlying library, and a flag
  describing whether the save raises) and produces a result value, an
  event trace and the updated file system.  The scripts install no
  exception handler, which the model reflects by propagating a save
  error unchanged.
-/

/-- RGB color triple, mirroring `pptx.dml.color.RGBColor`. -/
structure RGBColor where
  r : Nat
  g : Nat
  b : Nat
deriving DecidableEq, Repr

/-- Font size in points, mirroring `pptx.util.Pt`. -/
def Pt (x : Rat) : Rat := x

/-- Length in inch units, mirroring `pptx.util.Inches` (the EMU
conversion performed by the library is outside the repository's code). -/
def Inches (x : Rat) : Rat := x

/-- Character-level font settings of a paragraph
(`paragraph.font.size/bold/color`).  A `none` field was never assigned
and inherits from the theme. -/
structure Font where
  size : Option Rat := none
  bold : Option Bool := none
  color : Option RGBColor := none
deriving DecidableEq, Repr

/-- One paragraph of a text frame.  `text` keeps embedded newline
characters (python-pptx renders them as line breaks inside the
paragraph).  `space_after` / `space_before` are in points. -/
structure Paragraph where
  text : String := ""
  level : Nat := 0
  font : Font := {}
  space_after : Option Rat := none
  space_before : Option Rat := none
deriving DecidableEq, Repr

/-- A text frame.  A freshly created (or cleared) frame contains one
empty paragraph, as in python-pptx. -/
structure TextFrame where
  paragraphs : List Paragraph := [{}]
deriving DecidableEq, Repr

/-- Result of `tf.clear()`: a single empty paragraph remains. -/
def TextFrame.cleared : TextFrame := {}

/-- Splits a character list at line-feed characters, accumulating the
current line in reverse; structurally recursive so that proofs can
evaluate it. -/
def splitLinesAux : List Char → List Char → List String
  | [], acc => [⟨acc.reverse⟩]
  | c :: rest, acc =>
    if c = '\n' then ⟨acc.reverse⟩ :: splitLinesAux rest []
    else splitLinesAux rest (c :: acc)

/-- Splits a string at line-feed characters (like `s.splitOn "\n"`). -/
def splitLines (s : String) : List String := splitLinesAux s.data []

/-- Assignment to a frame-level `.text` property (`title.text = s`,
`subtitle.text = s`, `cell.text = s`): each line-feed starts a new
paragraph. -/
def TextFrame.setText (s : String) : TextFrame :=
  ⟨(splitLines s).map fun line => { text := line }⟩

/-- Appends a paragraph (`p = tf.add_paragraph()` followed by the
assignments to `p`, folded into one record). -/
def TextFrame.add_paragraph (tf : TextFrame) (p : Paragraph) : TextFrame :=
  ⟨tf.paragraphs ++ [p]⟩

/-- Applies a mutation to `paragraphs[0]`
(`x.text_frame.paragraphs[0].font... = ...`). -/
def TextFrame.onFirst (tf : TextFrame) (f : Paragraph → Paragraph) : TextFrame :=
  match tf.paragraphs with
  | [] => tf
  | p :: ps => ⟨f p :: ps⟩

/-- One table cell: its text frame and its (optional) solid fill color
(`cell.fill.solid(); cell.fill.fore_color.rgb = ...`). -/
structure TableCell where
  text_frame : TextFrame := {}
  fill : Option RGBColor := none
deriving DecidableEq, Repr

/-- A table: a row-major grid of cells plus the per-column widths set by
`table.columns[i].width = ...` (a `none` width was never assigned). -/
structure Table where
  cells : List (List TableCell)
  col_widths : List (Option Rat)
deriving DecidableEq, Repr

/-- Result of `shapes.add_table(nRows, nCols, ...)`: a grid of empty
cells with no column widths assigned yet. -/
def Table.new (nRows nCols : Nat) : Table :=
  ⟨List.replicate nRows (List.replicate nCols {}), List.replicate nCols none⟩

/-- Mirrors `table.columns[i].width = w`. -/
def Table.set_col_width (t : Table) (i : Nat) (w : Rat) : Table :=
  { t with col_widths := t.col_widths.set i (some w) }

/-- Applies a mutation to the cell at row `r`, column `c`
(`table.cell(r, c)` followed by assignments to the cell). -/
def Table.modify_cell (t : Table) (r c : Nat) (f : TableCell → TableCell) : Table :=
  { t with cells := t.cells.set r ((t.cells.getD r []).set c (f ((t.cells.getD r []).getD c {}))) }

/-- Number of rows of the table grid. -/
def Table.nRows (t : Table) : Nat := t.cells.length

/-- Number of columns of the table grid. -/
def Table.nCols (t : Table) : Nat := (t.cells.getD 0 []).length

/-- The text of each header-row cell (the text of paragraph 0 of each
cell in row 0, which is where `cell.text = header` puts it). -/
def Table.headerTexts (t : Table) : List String :=
  (t.cells.getD 0 []).map fun c => ((c.text_frame.paragraphs.getD 0 {}).text)

/-- A shape on a slide: a layout placeholder (index 0 is the title,
index 1 the subtitle/content body), a text box added by `add_textbox`,
or a table added by `add_table`.  Geometry is in inch units. -/
inductive Shape where
  | placeholder (idx : Nat) (text_frame : TextFrame)
  | textbox (left top width height : Rat) (text_frame : TextFrame)
  | table (left top width height : Rat) (tbl : Table)
deriving DecidableEq, Repr

/-- One slide: the index of the layout it was created from
(`prs.slide_layouts[layout_idx]`) and its shapes in order. -/
structure Slide where
  layout_idx : Nat
  shapes : List Shape
deriving DecidableEq, Repr

/-- Mirrors `prs.slides.add_slide(prs.slide_layouts[layout_idx])`: the
new slide carries the layout's title and body placeholders, each with an
empty text frame. -/
def Slide.add_slide (layout_idx : Nat) : Slide :=
  ⟨layout_idx, [.placeholder 0 {}, .placeholder 1 {}]⟩

/-- Replaces the text frame of placeholder `idx`
(`slide.shapes.title` / `slide.placeholders[1]` mutations). -/
def Slide.set_placeholder (s : Slide) (idx : Nat) (tf : TextFrame) : Slide :=
  { s with
    shapes := s.shapes.map fun sh =>
      match sh with
      | .placeholder i _ => if i = idx then .placeholder i tf else sh
      | _ => sh }

/-- Mirrors `slide.shapes.add_textbox(left, top, width, height)` with the
subsequent mutations of its text frame folded into `tf`. -/
def Slide.add_textbox (s : Slide) (left top width height : Rat) (tf : TextFrame) : Slide :=
  { s with shapes := s.shapes ++ [.textbox left top width height tf] }

/-- Mirrors `slide.shapes.add_table(rows, cols, left, top, width,
height)` with the subsequent mutations of the table folded into `t`. -/
def Slide.add_table (s : Slide) (left top width height : Rat) (t : Table) : Slide :=
  { s with shapes := s.shapes ++ [.table left top width height t] }

/-- The text of the slide's title placeholder (paragraph 0), if the
slide has one. -/
def Slide.titleText (s : Slide) : Option String :=
  s.shapes.findSome? fun sh =>
    match sh with
    | .placeholder 0 tf => some ((tf.paragraphs.getD 0 {}).text)
    | _ => none

/-- The first table shape on the slide, if any. -/
def Slide.firstTable (s : Slide) : Option Table :=
  s.shapes.findSome? fun sh =>
    match sh with
    | .table _ _ _ _ t => some t
    | _ => none

/-- The in-memory document: page dimensions (inches) and the ordered
slide list. -/
structure Presentation where
  slide_width : Rat
  slide_height : Rat
  slides : List Slide
deriving DecidableEq, Repr

/-- The operations both scripts perform on the `Presentation` object
itself, in program order.  Per-slide content mutations happen between
`add_slide` calls and only affect that slide, so they are folded into
the slide value carried by `add_slide`. -/
inductive PrsOp where
  | set_slide_width (w : Rat)
  | set_slide_height (h : Rat)
  | add_slide (s : Slide)
deriving DecidableEq, Repr

/-- True exactly for the page-dimension assignments. -/
def PrsOp.isSizeOp : PrsOp → Bool
  | .set_slide_width _ => true
  | .set_slide_height _ => true
  | .add_slide _ => false

/-- True exactly for `add_slide`. -/
def PrsOp.isAddSlide : PrsOp → Bool
  | .add_slide _ => true
  | _ => false

/-- State of `Presentation()` before any script statement runs: the
default template is 10 x 7.5 inches with no slides. -/
def Presentation.initial : Presentation := ⟨Inches 10, Inches 7.5, []⟩

/-- Effect of one `PrsOp` on the document. -/
def applyOp (p : Presentation) : PrsOp → Presentation
  | .set_slide_width w => { p with slide_width := w }
  | .set_slide_height h => { p with slide_height := h }
  | .add_slide s => { p with slides := p.slides ++ [s] }

/-- Folds an operation trace into the document it builds. -/
def buildPresentation (ops : List PrsOp) : Presentation :=
  ops.foldl applyOp Presentation.initial

/-- Error raised by a failing `prs.save(...)` call (e.g. permission
denied, disk full). -/
structure SaveError where
  msg : String
deriving DecidableEq, Repr

/-- The Python value a script's `create_presentation` can return; both
variants fall off the end of the function, returning `None`. -/
inductive PyValue where
  | none
deriving DecidableEq, Repr

/-- Observable events of a run: an attempt to save the document under a
file name, and a line printed to standard output. -/
inductive Event where
  | save_attempt (filename : String)
  | print_line (line : String)
deriving DecidableEq, Repr

/-- True exactly for print events. -/
def Event.isPrint : Event → Bool
  | .print_line _ => true
  | _ => false

/-- True exactly for save-attempt events. -/
def Event.isSave : Event → Bool
  | .save_attempt _ => true
  | _ => false

/-- A file system: file names mapped to byte contents, in creation
order. -/
def FileSys : Type := List (String × List Nat)

/-- Writes `content` under `name`, overwriting an existing entry of that
name and appending a new entry otherwise (the semantics of
`prs.save(name)` at the file-system level). -/
def setFile : FileSys → String → List Nat → FileSys
  | [], name, content => [(name, content)]
  | p :: rest, name, content =>
    if p.1 = name then (name, content) :: rest else p :: setFile rest name content

/-- Looks up the content stored under `name`. -/
def lookupFile : FileSys → String → Option (List Nat)
  | [], _ => none
  | p :: rest, n => if p.1 = n then some p.2 else lookupFile rest n

/-- Everything outside the script that a run can observe: the current
working directory's files, the (deterministic) serializer of the
underlying library, and whether the save call raises.  The scripts read
none of it while building the document. -/
structure Env where
  fs : FileSys
  serializer : Presentation → List Nat
  save_error : Option SaveError

/-- Outcome of a run: the value returned (or the propagated exception),
the event trace, and the resulting file system. -/
structure RunTrace where
  result : Except SaveError PyValue
  events : List Event
  fs : FileSys

/-- The tail of both scripts: `prs.save(filename)` followed by the
`print(...)` statements.  There is no `try`/`except` anywhere in either
script, so a raising save propagates unchanged: nothing is printed, the
file system is unchanged, and the run ends with the error. -/
def runScript (prs : Presentation) (filename : String) (lines : List String)
    (env : Env) : RunTrace :=
  match env.save_error with
  | some e => { result := .error e, events := [.save_attempt filename], fs := env.fs }
  | none =>
    { result := .ok .none
      events := .save_attempt filename :: lines.map .print_line
      fs := setFile env.fs filename (env.serializer prs) }

/-- An environment in which the save succeeds and no file exists yet. -/
def okEnv : Env := { fs := [], serializer := fun _ => [], save_error := none }

/-- An environment in which the save raises. -/
def errEnv : Env := { fs := [], serializer := fun _ => [], save_error := some ⟨"disk full"⟩ }

/-- GitHub Blue; both scripts define the same five color constants at
the top of `create_presentation`. -/
def PRIMARY_COLOR : RGBColor := ⟨9, 105, 218⟩

/-- GitHub Green. -/
def SECONDARY_COLOR : RGBColor := ⟨31, 136, 61⟩

/-- Red. -/
def DANGER_COLOR : RGBColor := ⟨209, 36, 47⟩

/-- Orange (defined by both scripts, never used). -/
def WARNING_COLOR : RGBColor := ⟨251, 133, 0⟩

/-- Dark Gray (defined by both scripts, never used). -/
def DARK_COLOR : RGBColor := ⟨36, 41, 47⟩

namespace FinalScript

/-- Slide 1 of `create_powerpoint_final.py` (title slide, layout 0). -/
def slide1 : Slide :=
  ((Slide.add_slide 0).set_placeholder 0
    ((TextFrame.setText "🚀 GitHub Developer Workflow").onFirst fun p =>
      { p with font := { p.font with
          size := some (Pt 38), bold := some true,
          color := some PRIMARY_COLOR } })).set_placeholder 1
    ((TextFrame.setText "Phase 1: Improve Team Communication & Standards\n\n💬 Better Collaboration | 📝 Consistent Documentation | ⚡ Faster Decisions\n\nPhase 2: Full GitHub Project Management (Future)\n\nPresented by: Amna & Hanzla").onFirst fun p =>
      { p with font := { p.font with size := some (Pt 16) } })

/-- The `agenda_items` list of slide 2. -/
def agenda_items : List (String × String) :=
  [("🔴 Communication Pain Points", "4 min"),
   ("💬 Phase 1: Improve Team Communication", "8 min"),
   ("📝 Templates & Standards", "6 min"),
   ("🎯 Quick Wins Demo", "5 min"),
   ("📊 Phase 1 Implementation (2 weeks)", "4 min"),
   ("🚀 Phase 2 Vision (Future)", "3 min")]

/-- Slide 2 (agenda, layout 1): per item one bold 20pt paragraph
`"{item} ({time})"` with 12pt space after. -/
def slide2 : Slide :=
  ((Slide.add_slide 1).set_placeholder 0
    (TextFrame.setText "📋 Communication-First Agenda")).set_placeholder 1
    (agenda_items.foldl
      (fun tf it =>
        tf.add_paragraph
          { text := it.1 ++ " (" ++ it.2 ++ ")", level := 0,
            font := { size := some (Pt 20), bold := some true },
            space_after := some (Pt 12) })
      TextFrame.cleared)

/-- The `challenges` list of slide 3. -/
def challenges : List (String × List String) :=
  [("🔧 Process Communication (40% Impact)",
    ["Unclear requirements in issues", "Missing context in PRs", "No standard templates"]),
   ("👥 Team Communication (35% Impact)",
    ["Knowledge silos", "Delayed feedback", "Inconsistent updates"]),
   ("📋 Documentation Issues (25% Impact)",
    ["Outdated information", "Missing project context", "No standardized formats"])]

/-- Slide 3 (communication challenges, layout 1): per category a bold
red 18pt heading, its bulleted 15pt items at level 1, then a spacing
paragraph. -/
def slide3 : Slide :=
  ((Slide.add_slide 1).set_placeholder 0
    (TextFrame.setText "💬 Communication Challenges")).set_placeholder 1
    (challenges.foldl
      (fun tf cat =>
        ((cat.2.foldl
          (fun tf2 item =>
            tf2.add_paragraph
              { text := "• " ++ item, level := 1, font := { size := some (Pt 15) } })
          (tf.add_paragraph
            { text := cat.1, level := 0,
              font := { size := some (Pt 18), bold := some true,
                        color := some DANGER_COLOR } }))).add_paragraph {})
      TextFrame.cleared)

/-- The `benefits` list of slide 4. -/
def benefits : List String :=
  ["✅ Immediate impact on team productivity",
   "✅ Low implementation effort, high value",
   "✅ Builds foundation for Phase 2 (full methodology)",
   "✅ Everyone can contribute regardless of GitHub experience",
   "✅ Reduces confusion and rework by 60%"]

/-- Slide 4 (Phase 1 focus, layout 1): title plus a text box at
(1, 1.8) of size 11.5 x 5 with a heading and the benefit lines. -/
def slide4 : Slide :=
  ((Slide.add_slide 1).set_placeholder 0
    (TextFrame.setText "💬 Phase 1: Communication First")).add_textbox
    (Inches 1) (Inches 1.8) (Inches 11.5) (Inches 5)
    (benefits.foldl
      (fun tf benefit =>
        tf.add_paragraph
          { text := benefit, font := { size := some (Pt 18) },
            space_after := some (Pt 10) })
      (TextFrame.cleared.add_paragraph
        { text := "🎯 Why Communication First?",
          font := { size := some (Pt 22), bold := some true, color := some PRIMARY_COLOR },
          space_after := some (Pt 15) }))

/-- The `headers` list of the slide-5 table. -/
def headers : List String := ["Communication Tool", "Current State", "Phase 1 Improvement"]

/-- The `data` rows of the slide-5 table (each source tuple as a list,
iterated by the inner `enumerate`). -/
def data : List (List String) :=
  [["📋 Issue Creation", "Vague descriptions", "Smart templates"],
   ["🔄 Pull Requests", "Missing context", "Standard format"],
   ["🏷️ Labels", "Inconsistent usage", "Clear taxonomy"],
   ["💬 Communication", "Ad-hoc updates", "Structured process"]]

/-- The table of slide 5: `add_table(5, 3, ...)`, column widths
4.5 / 3.9 / 3.9 inches, white bold 16pt headers on a primary-color
fill, 14pt data cells. -/
def slide5_table : Table :=
  (List.enumFrom 1 data).foldl
    (fun t rr =>
      rr.2.enum.foldl
        (fun t2 cv =>
          t2.modify_cell rr.1 cv.1 fun c =>
            { c with
              text_frame := (TextFrame.setText cv.2).onFirst fun p =>
                { p with font := { p.font with size := some (Pt 14) } } })
        t)
    (headers.enum.foldl
      (fun t hc =>
        t.modify_cell 0 hc.1 fun c =>
          { c with
            text_frame := (TextFrame.setText hc.2).onFirst fun p =>
              { p with font := { p.font with
                  bold := some true, size := some (Pt 16),
                  color := some ⟨255, 255, 255⟩ } },
            fill := some PRIMARY_COLOR })
      ((((Table.new 5 3).set_col_width 0 (Inches 4.5)).set_col_width 1
        (Inches 3.9)).set_col_width 2 (Inches 3.9)))

/-- Slide 5 (templates and standards, layout 1): title plus the table at
(0.5, 1.8) of size 12.3 x 4.5. -/
def slide5 : Slide :=
  ((Slide.add_slide 1).set_placeholder 0
    (TextFrame.setText "📝 Phase 1: Templates & Standards")).add_table
    (Inches 0.5) (Inches 1.8) (Inches 12.3) (Inches 4.5) slide5_table

/-- The `quick_wins` list of slide 6. -/
def quick_wins : List String :=
  ["📝 Deploy issue templates (1 hour setup)",
   "✅ Add PR template (30 minutes)",
   "🏷️ Create basic label set (15 labels max)",
   "📋 Team training session (1 hour)",
   "💬 Establish update rhythm (daily/weekly)"]

/-- Slide 6 (quick wins, layout 1): one 20pt paragraph per win with
15pt space after. -/
def slide6 : Slide :=
  ((Slide.add_slide 1).set_placeholder 0
    (TextFrame.setText "⚡ Phase 1 Quick Wins (Week 1)")).set_placeholder 1
    (quick_wins.foldl
      (fun tf win =>
        tf.add_paragraph
          { text := win, font := { size := some (Pt 20) }, space_after := some (Pt 15) })
      TextFrame.cleared)

/-- Slide 7 (issue templates demo, layout 1): title plus before/after
text boxes of size 6 x 4.5 at x = 0.5 and x = 7. -/
def slide7 : Slide :=
  (((Slide.add_slide 1).set_placeholder 0
    (TextFrame.setText "📋 Better Issue Communication")).add_textbox
    (Inches 0.5) (Inches 1.8) (Inches 6) (Inches 4.5)
    ((TextFrame.cleared.add_paragraph
      { text := "❌ Before: Poor Communication",
        font := { size := some (Pt 18), bold := some true,
                  color := some DANGER_COLOR } }).add_paragraph
      { text := "Title: Bug\nDescription: It\x27s broken\n\nResult:\n• Unclear scope\n• Missing context\n• Back-and-forth questions\n• Delayed resolution",
        font := { size := some (Pt 14) } })).add_textbox
    (Inches 7) (Inches 1.8) (Inches 6) (Inches 4.5)
    ((TextFrame.cleared.add_paragraph
      { text := "✅ After: Clear Communication",
        font := { size := some (Pt 18), bold := some true,
                  color := some SECONDARY_COLOR } }).add_paragraph
      { text := "🐛 Login Error on Mobile\n\nPriority: High\nSteps: 1. Open app 2. Enter credentials\nExpected: Dashboard loads\nActual: 500 error\nScreenshot: [attached]\n\nResult:\n• Clear understanding\n• Immediate action\n• Faster resolution",
        font := { size := some (Pt 14) } })

/-- The `roadmap` list of slide 8. -/
def roadmap : List (String × String) :=
  [("Week 1: Foundation", "✅ Templates | ✅ Labels | ✅ Training | ✅ First PRs"),
   ("Week 2: Adoption", "📊 Measure usage | 🔄 Iterate | 💬 Feedback | 🎯 Refine")]

/-- The `results` list of slide 8. -/
def results : List String :=
  ["🎯 80% of issues use templates",
   "💬 Clearer team communication",
   "⚡ 30% faster issue resolution",
   "📋 Consistent documentation"]

/-- Slide 8 (two-week implementation plan, layout 1). -/
def slide8 : Slide :=
  ((Slide.add_slide 1).set_placeholder 0
    (TextFrame.setText "📅 Phase 1: 2-Week Implementation")).set_placeholder 1
    (results.foldl
      (fun tf result =>
        tf.add_paragraph { text := result, font := { size := some (Pt 16) } })
      ((roadmap.foldl
        (fun tf wk =>
          (tf.add_paragraph
            { text := wk.1,
              font := { size := some (Pt 22), bold := some true,
                        color := some PRIMARY_COLOR } }).add_paragraph
            { text := wk.2, font := { size := some (Pt 18) },
              space_after := some (Pt 20) })
        TextFrame.cleared).add_paragraph
        { text := "Expected Results After 2 Weeks:",
          font := { size := some (Pt 20), bold := some true } }))

/-- The `phase2_items` list of slide 9. -/
def phase2_items : List String :=
  ["📊 GitHub Project Boards for sprint management",
   "🤖 Automated workflows and quality gates",
   "📈 Sprint planning and velocity tracking",
   "🔄 Full CI/CD integration",
   "📋 Advanced reporting and analytics"]

/-- Slide 9 (Phase 2 vision, layout 1). -/
def slide9 : Slide :=
  ((Slide.add_slide 1).set_placeholder 0
    (TextFrame.setText "🚀 Phase 2: Full Methodology (Future)")).set_placeholder 1
    ((phase2_items.foldl
      (fun tf item =>
        tf.add_paragraph
          { text := item, font := { size := some (Pt 18) }, space_after := some (Pt 10) })
      (TextFrame.cleared.add_paragraph
        { text := "After Phase 1 Success, We\x27ll Add:",
          font := { size := some (Pt 20), bold := some true, color := some PRIMARY_COLOR },
          space_after := some (Pt 15) })).add_paragraph
      { text := "\n🎯 Timeline: After Phase 1 proves communication improvements",
        font := { size := some (Pt 16), color := some SECONDARY_COLOR, bold := some true } })

/-- The `actions` list of slide 10. -/
def actions : List String :=
  ["☑️ Add issue template to one repository",
   "☑️ Create basic label set (5-10 labels)",
   "☑️ Add PR template",
   "☑️ Team intro session (30 minutes)",
   "☑️ Try on 2-3 issues this week"]

/-- Slide 10 (start Phase 1 today, layout 1). -/
def slide10 : Slide :=
  ((Slide.add_slide 1).set_placeholder 0
    (TextFrame.setText "🎬 Start Phase 1 Today")).set_placeholder 1
    (((actions.foldl
      (fun tf action =>
        tf.add_paragraph
          { text := action, font := { size := some (Pt 18) }, space_after := some (Pt 8) })
      (TextFrame.cleared.add_paragraph
        { text := "Immediate Actions (This Week):",
          font := { size := some (Pt 22), bold := some true, color := some PRIMARY_COLOR },
          space_after := some (Pt 15) })).add_paragraph
      { text := "\nResources:", font := { size := some (Pt 20), bold := some true },
        space_before := some (Pt 20) }).add_paragraph
      { text := "📦 Templates: github.com/hanzlahabib/github-workflow-demo",
        font := { size := some (Pt 16) } })

/-- The `questions` list of slide 11. -/
def questions : List String :=
  ["✅ How do we get team buy-in for templates?",
   "✅ What if people forget to use them?",
   "✅ How do we measure communication improvement?",
   "✅ When do we move to Phase 2?"]

/-- Slide 11 (questions and discussion, layout 1). -/
def slide11 : Slide :=
  ((Slide.add_slide 1).set_placeholder 0
    (TextFrame.setText "💡 Questions & Discussion")).set_placeholder 1
    (((questions.foldl
      (fun tf q =>
        tf.add_paragraph
          { text := q, font := { size := some (Pt 18) }, space_after := some (Pt 10) })
      (TextFrame.cleared.add_paragraph
        { text := "Phase 1 Questions:",
          font := { size := some (Pt 20), bold := some true },
          space_after := some (Pt 15) })).add_paragraph
      { text := "\nContact:", font := { size := some (Pt 20), bold := some true },
        space_before := some (Pt 20) }).add_paragraph
      { text := "GitHub: @hanzlahabib | @amna\nDemo: github.com/hanzlahabib/github-workflow-demo",
        font := { size := some (Pt 16) } })

/-- Slide 12 (thank-you slide, layout 0). -/
def slide12 : Slide :=
  ((Slide.add_slide 0).set_placeholder 0
    ((TextFrame.setText "🙏 Thank You!").onFirst fun p =>
      { p with font := { p.font with size := some (Pt 42), bold := some true } })).set_placeholder 1
    ((TextFrame.setText "Ready to Improve Team Communication?\n\n💬 Start Phase 1 This Week\n📈 Measure the Impact\n🚀 Prepare for Phase 2\n\nLet\x27s build better software, together.").onFirst fun p =>
      { p with font := { p.font with size := some (Pt 18) } })

/-- The program-order trace of operations on the `Presentation` object:
the two page-dimension assignments, then the twelve `add_slide` calls. -/
def ops : List PrsOp :=
  [.set_slide_width (Inches 13.333), .set_slide_height (Inches 7.5),
   .add_slide slide1, .add_slide slide2, .add_slide slide3, .add_slide slide4,
   .add_slide slide5, .add_slide slide6, .add_slide slide7, .add_slide slide8,
   .add_slide slide9, .add_slide slide10, .add_slide slide11, .add_slide slide12]

/-- The document `create_powerpoint_final.py` builds. -/
def prs : Presentation := buildPresentation ops

/-- The fixed output file name of the final script. -/
def output_filename : String := "GitHub_Workflow_Communication_First.pptx"

/-- The four `print(...)` lines at the end of the final script. -/
def stdout_lines : List String :=
  ["✅ Communication-focused PowerPoint created successfully!",
   "📁 File saved as: GitHub_Workflow_Communication_First.pptx",
   "💬 Emphasizes Phase 1: Communication improvement",
   "🎯 Properly sized for full content visibility"]

/-- The whole `create_presentation()` of `create_powerpoint_final.py`:
builds `prs`, saves it under the fixed name, prints the status lines. -/
def create_presentation (env : Env) : RunTrace :=
  runScript prs output_filename stdout_lines env

end FinalScript

namespace ImprovedScript

/-- Slide 1 of `create_powerpoint_improved.py` (title slide, layout 0). -/
def slide1 : Slide :=
  ((Slide.add_slide 0).set_placeholder 0
    ((TextFrame.setText "🚀 GitHub Developer Workflow").onFirst fun p =>
      { p with font := { p.font with
          size := some (Pt 42), bold := some true,
          color := some PRIMARY_COLOR } })).set_placeholder 1
    ((TextFrame.setText "From Chaos to Clarity: Two-Phase Transformation\n\n🎯 Phase 1: Improve Communication & Standards\n🚀 Phase 2: Full GitHub Project & Agile Methodology\n\n📈 60% Faster PR Cycles | 40% Fewer Bugs | 90% Team Satisfaction\n\nPresented by: Amna & Hanzla").onFirst fun p =>
      { p with font := { p.font with size := some (Pt 16) } })

/-- The `agenda_items` list of slide 2 (item, time, description). -/
def agenda_items : List (String × String × String) :=
  [("🔴 Current Pain Points", "5 min", "Identify workflow challenges"),
   ("🟡 Root Cause Analysis", "3 min", "Understanding persistence"),
   ("🟢 Solution Architecture", "10 min", "GitHub-based workflow system"),
   ("🎯 Live Demonstration", "7 min", "See workflow in action"),
   ("📊 Implementation Roadmap", "5 min", "30-day transformation plan")]

/-- Slide 2 (agenda, layout 1): per item a bold 17pt heading
`"{item} ({time})"` and a 14pt level-1 description. -/
def slide2 : Slide :=
  ((Slide.add_slide 1).set_placeholder 0
    (TextFrame.setText "📋 Agenda")).set_placeholder 1
    (agenda_items.foldl
      (fun tf it =>
        (tf.add_paragraph
          { text := it.1 ++ " (" ++ it.2.1 ++ ")", level := 0,
            font := { size := some (Pt 17), bold := some true } }).add_paragraph
          { text := it.2.2, level := 1, font := { size := some (Pt 14) },
            space_after := some (Pt 8) })
      TextFrame.cleared)

/-- The `challenges` list of slide 3. -/
def challenges : List (String × List String) :=
  [("🔧 Process Issues (40% Impact)",
    ["Split Project Management - Multiple tools",
     "Inconsistent Formats - 30+ min/PR overhead",
     "Unclear Sprint Boundaries - 25% scope creep"]),
   ("👥 People Issues (35% Impact)",
    ["Knowledge Gap - Single points of failure",
     "Poor Communication - Delayed decisions",
     "Review Quality vs Delay - 3-day PR lifecycle"]),
   ("🛠️ Technical Debt (25% Impact)",
    ["Production Bugs - Missing quality gates",
     "Outdated Docs - 60% onboarding confusion",
     "Notification Chaos - Important items missed"])]

/-- Slide 3 (current challenges, layout 1): per category a bold red
16pt heading, its bulleted 13pt items at level 1, then a spacing
paragraph. -/
def slide3 : Slide :=
  ((Slide.add_slide 1).set_placeholder 0
    (TextFrame.setText "🚨 Current Challenges")).set_placeholder 1
    (challenges.foldl
      (fun tf cat =>
        ((cat.2.foldl
          (fun tf2 item =>
            tf2.add_paragraph
              { text := "• " ++ item, level := 1, font := { size := some (Pt 13) } })
          (tf.add_paragraph
            { text := cat.1, level := 0,
              font := { size := some (Pt 16), bold := some true,
                        color := some DANGER_COLOR } }))).add_paragraph {})
      TextFrame.cleared)

/-- The `before_items` list of slide 4. -/
def before_items : List String :=
  ["5+ tools for project management",
   "3-day PR review cycle",
   "40% PRs missing context",
   "Weekly production bugs",
   "60% sprint completion rate"]

/-- The `after_items` list of slide 4. -/
def after_items : List String :=
  ["Single GitHub workspace",
   "4-hour PR review cycle",
   "100% PRs with templates",
   "90% bug reduction",
   "92% sprint completion rate"]

/-- Slide 4 (from chaos to clarity, layout 1): before/after text boxes
of size 6.4 x 5.2 at x = 0.3 and x = 6.9. -/
def slide4 : Slide :=
  (((Slide.add_slide 1).set_placeholder 0
    (TextFrame.setText "🔄 From Chaos to Clarity")).add_textbox
    (Inches 0.3) (Inches 1.6) (Inches 6.4) (Inches 5.2)
    (before_items.foldl
      (fun tf item =>
        tf.add_paragraph
          { text := "• " ++ item, font := { size := some (Pt 15) },
            space_after := some (Pt 4) })
      (TextFrame.cleared.add_paragraph
        { text := "😰 Before (Chaos)",
          font := { size := some (Pt 18), bold := some true,
                    color := some DANGER_COLOR } }))).add_textbox
    (Inches 6.9) (Inches 1.6) (Inches 6.4) (Inches 5.2)
    (after_items.foldl
      (fun tf item =>
        tf.add_paragraph
          { text := "✅ " ++ item, font := { size := some (Pt 15) },
            space_after := some (Pt 4) })
      (TextFrame.cleared.add_paragraph
        { text := "🎯 After (Clarity)",
          font := { size := some (Pt 18), bold := some true,
                    color := some SECONDARY_COLOR } }))

/-- The `headers` list of the slide-5 table. -/
def headers : List String := ["Component", "Impact", "Effort", "Timeline"]

/-- The `data` rows of the slide-5 table (each source tuple as a list,
iterated by the inner `enumerate`). -/
def data : List (List String) :=
  [["📊 GitHub Project Boards", "⭐⭐⭐ High", "Low", "Week 1"],
   ["📝 Issue Templates", "⭐⭐⭐ High", "Low", "Week 1"],
   ["✅ PR Templates", "⭐⭐⭐ High", "Low", "Week 1"],
   ["🤖 GitHub Actions", "⭐⭐⭐ High", "Medium", "Week 2"],
   ["🏷️ Label Taxonomy", "⭐⭐ Medium", "Low", "Week 1"]]

/-- The table of slide 5: `add_table(6, 4, ...)`, column widths
4.2 / 2.8 / 2.8 / 2.9 inches, white bold 15pt headers on a
primary-color fill, 13pt data cells. -/
def slide5_table : Table :=
  (List.enumFrom 1 data).foldl
    (fun t rr =>
      rr.2.enum.foldl
        (fun t2 cv =>
          t2.modify_cell rr.1 cv.1 fun c =>
            { c with
              text_frame := (TextFrame.setText cv.2).onFirst fun p =>
                { p with font := { p.font with size := some (Pt 13) } } })
        t)
    (headers.enum.foldl
      (fun t hc =>
        t.modify_cell 0 hc.1 fun c =>
          { c with
            text_frame := (TextFrame.setText hc.2).onFirst fun p =>
              { p with font := { p.font with
                  bold := some true, size := some (Pt 15),
                  color := some ⟨255, 255, 255⟩ } },
            fill := some PRIMARY_COLOR })
      (((((Table.new 6 4).set_col_width 0 (Inches 4.2)).set_col_width 1
        (Inches 2.8)).set_col_width 2 (Inches 2.8)).set_col_width 3 (Inches 2.9)))

/-- Slide 5 (solution architecture, layout 1): title plus the table at
(0.3, 1.6) of size 12.7 x 4.8. -/
def slide5 : Slide :=
  ((Slide.add_slide 1).set_placeholder 0
    (TextFrame.setText "💡 Solution Architecture")).add_table
    (Inches 0.3) (Inches 1.6) (Inches 12.7) (Inches 4.8) slide5_table

/-- The `workflow_steps` list of slide 6. -/
def workflow_steps : List String :=
  ["📝 Issue Created → Template enforced",
   "🏷️ Auto-labeled → Type & Priority assigned",
   "📊 Added to Board → Sprint assigned automatically",
   "🌿 Branch Created → Follows naming convention",
   "🔄 PR Opened → Template applied, checks triggered",
   "✅ Auto-checks → Quality gates enforced",
   "🚀 Merged → Automatic deployment"]

/-- Slide 6 (automated workflow, layout 1): one 16pt paragraph per step
with 8pt space after. -/
def slide6 : Slide :=
  ((Slide.add_slide 1).set_placeholder 0
    (TextFrame.setText "⚙️ Automated Workflow")).set_placeholder 1
    (workflow_steps.foldl
      (fun tf step =>
        tf.add_paragraph
          { text := step, font := { size := some (Pt 16) }, space_after := some (Pt 8) })
      TextFrame.cleared)

/-- Slide 7 (label taxonomy, layout 1): seven fixed paragraphs. -/
def slide7 : Slide :=
  ((Slide.add_slide 1).set_placeholder 0
    (TextFrame.setText "🏷️ Intelligent Label Taxonomy")).set_placeholder 1
    ((((((((TextFrame.cleared.add_paragraph
      { text := "Type Labels (One Required):",
        font := { size := some (Pt 17), bold := some true } }).add_paragraph
      { text := "🟦 type: feature   🟥 type: bug   🟨 type: task",
        font := { size := some (Pt 15) }, space_after := some (Pt 15) }).add_paragraph
      { text := "Priority Matrix:",
        font := { size := some (Pt 17), bold := some true } }).add_paragraph
      { text := "🔴 critical   🟠 high   🟡 medium   🟢 low",
        font := { size := some (Pt 15) }, space_after := some (Pt 15) }).add_paragraph
      { text := "Workflow Status (Auto-updated):",
        font := { size := some (Pt 17), bold := some true } }).add_paragraph
      { text := "📋 backlog → 📝 todo → 🏃 in-progress",
        font := { size := some (Pt 15) } }).add_paragraph
      { text := "🚫 blocked → 👀 review → ✅ done",
        font := { size := some (Pt 15) } }))

/-- The `roadmap` list of slide 8. -/
def roadmap : List (String × String) :=
  [("Week 1: Foundation", "✅ Deploy templates | ✅ Configure labels | ✅ Team training"),
   ("Week 2: Automation", "⚙️ GitHub Actions | 📊 Project boards | 🔗 Integrations"),
   ("Week 3: Integration", "💬 Slack notifications | 📈 Analytics dashboard"),
   ("Week 4: Optimization", "🎯 Refine workflows | 📊 Measure success | 🚀 Scale")]

/-- Slide 8 (30-day implementation plan, layout 1). -/
def slide8 : Slide :=
  ((Slide.add_slide 1).set_placeholder 0
    (TextFrame.setText "🚀 30-Day Implementation Plan")).set_placeholder 1
    (roadmap.foldl
      (fun tf wk =>
        (tf.add_paragraph
          { text := wk.1,
            font := { size := some (Pt 18), bold := some true,
                      color := some PRIMARY_COLOR } }).add_paragraph
          { text := wk.2, font := { size := some (Pt 15) },
            space_after := some (Pt 12) })
      TextFrame.cleared)

/-- The `metrics_before` list of slide 9. -/
def metrics_before : List String :=
  ["PR Cycle: 3 days", "Bug Rate: 15%", "Sprint Success: 60%", "Team Satisfaction: 6/10"]

/-- The `metrics_after` list of slide 9. -/
def metrics_after : List String :=
  ["PR Cycle: 4 hours ⬇️ 87%", "Bug Rate: 3% ⬇️ 80%",
   "Sprint Success: 92% ⬆️ 53%", "Team Satisfaction: 9/10 ⬆️ 50%"]

/-- Slide 9 (measurable success, layout 1): before/after metric boxes
of size 6.4 x 5.2 at x = 0.3 and x = 6.9. -/
def slide9 : Slide :=
  (((Slide.add_slide 1).set_placeholder 0
    (TextFrame.setText "📈 Measurable Success")).add_textbox
    (Inches 0.3) (Inches 1.6) (Inches 6.4) (Inches 5.2)
    (metrics_before.foldl
      (fun tf metric =>
        tf.add_paragraph
          { text := metric, font := { size := some (Pt 16) },
            space_after := some (Pt 8) })
      (TextFrame.cleared.add_paragraph
        { text := "📊 Before",
          font := { size := some (Pt 20), bold := some true } }))).add_textbox
    (Inches 6.9) (Inches 1.6) (Inches 6.4) (Inches 5.2)
    (metrics_after.foldl
      (fun tf metric =>
        tf.add_paragraph
          { text := metric, font := { size := some (Pt 16) },
            space_after := some (Pt 8) })
      (TextFrame.cleared.add_paragraph
        { text := "🎯 After 30 Days",
          font := { size := some (Pt 20), bold := some true,
                    color := some SECONDARY_COLOR } }))

/-- The `actions` list of slide 10. -/
def actions : List String :=
  ["☑️ Create your first project board",
   "☑️ Import standard label set",
   "☑️ Add issue templates",
   "☑️ Enable branch protection",
   "☑️ Configure PR template"]

/-- Slide 10 (immediate actions, layout 1). -/
def slide10 : Slide :=
  ((Slide.add_slide 1).set_placeholder 0
    (TextFrame.setText "🎬 Immediate Actions")).set_placeholder 1
    (((actions.foldl
      (fun tf action =>
        tf.add_paragraph
          { text := action, font := { size := some (Pt 17) }, space_after := some (Pt 6) })
      (TextFrame.cleared.add_paragraph
        { text := "Do Today:",
          font := { size := some (Pt 20), bold := some true,
                    color := some PRIMARY_COLOR } })).add_paragraph
      { text := "\nResources:",
        font := { size := some (Pt 19), bold := some true } }).add_paragraph
      { text := "📦 Templates: github.com/hanzlahabib/github-workflow-demo",
        font := { size := some (Pt 15) } })

/-- The `questions` list of slide 11. -/
def questions : List String :=
  ["✅ How do we handle urgent hotfixes?",
   "✅ What about multiple repositories?",
   "✅ How to migrate existing issues?",
   "✅ What\x27s the actual ROI?"]

/-- The `contact_info` list of slide 11. -/
def contact_info : List String :=
  ["GitHub: @hanzlahabib | @amna",
   "Demo: github.com/hanzlahabib/github-workflow-demo",
   "Office Hours: Thursdays 2-3 PM"]

/-- Slide 11 (questions and discussion, layout 1). -/
def slide11 : Slide :=
  ((Slide.add_slide 1).set_placeholder 0
    (TextFrame.setText "💡 Questions & Discussion")).set_placeholder 1
    (contact_info.foldl
      (fun tf info =>
        tf.add_paragraph { text := info, font := { size := some (Pt 15) } })
      ((questions.foldl
        (fun tf q =>
          tf.add_paragraph
            { text := q, font := { size := some (Pt 16) }, space_after := some (Pt 8) })
        (TextFrame.cleared.add_paragraph
          { text := "Common Questions:",
            font := { size := some (Pt 19), bold := some true } })).add_paragraph
        { text := "\nContact & Support:",
          font := { size := some (Pt 19), bold := some true },
          space_before := some (Pt 15) }))

/-- Slide 12 (thank-you slide, layout 0). -/
def slide12 : Slide :=
  ((Slide.add_slide 0).set_placeholder 0
    ((TextFrame.setText "🙏 Thank You!").onFirst fun p =>
      { p with font := { p.font with size := some (Pt 46), bold := some true } })).set_placeholder 1
    ((TextFrame.setText "Ready to Transform Your Workflow?\n\n🚀 Start Your 30-Day Journey Today\n\nLet\x27s build better software, together.").onFirst fun p =>
      { p with font := { p.font with size := some (Pt 20) } })

/-- The program-order trace of operations on the `Presentation` object:
the two page-dimension assignments, then the twelve `add_slide` calls. -/
def ops : List PrsOp :=
  [.set_slide_width (Inches 13.333), .set_slide_height (Inches 7.5),
   .add_slide slide1, .add_slide slide2, .add_slide slide3, .add_slide slide4,
   .add_slide slide5, .add_slide slide6, .add_slide slide7, .add_slide slide8,
   .add_slide slide9, .add_slide slide10, .add_slide slide11, .add_slide slide12]

/-- The document `create_powerpoint_improved.py` builds. -/
def prs : Presentation := buildPresentation ops

/-- The fixed output file name of the improved script. -/
def output_filename : String := "GitHub_Workflow_Best_Practices_Improved.pptx"

/-- The three `print(...)` lines at the end of the improved script. -/
def stdout_lines : List String :=
  ["✅ Improved PowerPoint presentation created successfully!",
   "📁 File saved as: GitHub_Workflow_Best_Practices_Improved.pptx",
   "🎯 Optimized for better visibility and content fitting"]

/-- The whole `create_presentation()` of `create_powerpoint_improved.py`:
builds `prs`, saves it under the fixed name, prints the status lines. -/
def create_presentation (env : Env) : RunTrace :=
  runScript prs output_filename stdout_lines env

end ImprovedScript

/-- Writing a file makes it present with exactly the written content. -/
theorem lookupFile_setFile_self (fs : FileSys) (n : String) (c : List Nat) :
    lookupFile (setFile fs n c) n = some c := by
  induction fs with
  | nil => simp [setFile, lookupFile]
  | cons p rest ih =>
    by_cases h : p.1 = n
    · simp [setFile, lookupFile, h]
    · simp [setFile, lookupFile, h, ih]

/-- Writing a file leaves every other file's content unchanged. -/
theorem lookupFile_setFile_other (fs : FileSys) (n m : String) (c : List Nat)
    (h : m ≠ n) : lookupFile (setFile fs n c) m = lookupFile fs m := by
  induction fs with
  | nil => simp [setFile, lookupFile, Ne.symm h]
  | cons p rest ih =>
    by_cases hp : p.1 = n
    · simp [setFile, lookupFile, hp, Ne.symm h]
    · simp [setFile, lookupFile, hp, ih]

/-- Writing a file creates no file other than the one written: any file
present afterwards is the written one or was present before. -/
theorem lookupFile_setFile_mem (fs : FileSys) (n m : String) (c : List Nat)
    (h : lookupFile (setFile fs n c) m ≠ none) :
    m = n ∨ lookupFile fs m ≠ none := by
  by_cases hm : m = n
  · exact Or.inl hm
  · exact Or.inr (by rw [← lookupFile_setFile_other fs n m c hm]; exact h)

/-- C1: for each script variant, `create_presentation` builds a document
containing exactly 12 slides, appended in the fixed order given by the
script (title slide, agenda, challenges, ..., thank-you slide); the
slide titles below list that order. -/
theorem slide_count_and_fixed_order :
    FinalScript.prs.slides.length = 12 ∧
    ImprovedScript.prs.slides.length = 12 ∧
    FinalScript.prs.slides.map Slide.titleText =
      [some "🚀 GitHub Developer Workflow", some "📋 Communication-First Agenda",
       some "💬 Communication Challenges", some "💬 Phase 1: Communication First",
       some "📝 Phase 1: Templates & Standards", some "⚡ Phase 1 Quick Wins (Week 1)",
       some "📋 Better Issue Communication", some "📅 Phase 1: 2-Week Implementation",
       some "🚀 Phase 2: Full Methodology (Future)", some "🎬 Start Phase 1 Today",
       some "💡 Questions & Discussion", some "🙏 Thank You!"] ∧
    ImprovedScript.prs.slides.map Slide.titleText =
      [some "🚀 GitHub Developer Workflow", some "📋 Agenda",
       some "🚨 Current Challenges", some "🔄 From Chaos to Clarity",
       some "💡 Solution Architecture", some "⚙️ Automated Workflow",
       some "🏷️ Intelligent Label Taxonomy", some "🚀 30-Day Implementation Plan",
       some "📈 Measurable Success", some "🎬 Immediate Actions",
       some "💡 Questions & Discussion", some "🙏 Thank You!"] :=
  ⟨rfl, rfl, rfl, rfl⟩

/-- C2 counterexample: in the improved script, the table added on slide
5 has 6 rows, not 5, so the claim fails for that variant. -/
theorem improved_slide5_table_has_six_rows :
    ((ImprovedScript.prs.slides.getD 4 (Slide.add_slide 1)).firstTable.map Table.nRows
       = some 6) ∧
    ¬ ((ImprovedScript.prs.slides.getD 4 (Slide.add_slide 1)).firstTable.map Table.nRows
       = some 5) :=
  ⟨rfl, by decide⟩

/-- C2 amended: the table added on slide 5 contains exactly 5 rows and 3
columns in the final script and exactly 6 rows and 4 columns in the
improved script; in both, the header-row cell texts equal the script's
fixed header set. -/
theorem slide5_table_shape_and_headers :
    (FinalScript.prs.slides.getD 4 (Slide.add_slide 1)).firstTable.map Table.nRows
      = some 5 ∧
    (FinalScript.prs.slides.getD 4 (Slide.add_slide 1)).firstTable.map Table.nCols
      = some 3 ∧
    (FinalScript.prs.slides.getD 4 (Slide.add_slide 1)).firstTable.map Table.headerTexts
      = some ["Communication Tool", "Current State", "Phase 1 Improvement"] ∧
    (ImprovedScript.prs.slides.getD 4 (Slide.add_slide 1)).firstTable.map Table.nRows
      = some 6 ∧
    (ImprovedScript.prs.slides.getD 4 (Slide.add_slide 1)).firstTable.map Table.nCols
      = some 4 ∧
    (ImprovedScript.prs.slides.getD 4 (Slide.add_slide 1)).firstTable.map Table.headerTexts
      = some ["Component", "Impact", "Effort", "Timeline"] :=
  ⟨rfl, rfl, rfl, rfl, rfl, rfl⟩

/-- C8: in both script variants the page dimensions are assigned the
widescreen values 13.333 x 7.5 inches, the only dimension assignments in
the operation trace are the two that precede the first `add_slide`, and
no operation after the first `add_slide` is a dimension assignment. -/
theorem page_dimensions_set_before_slides :
    FinalScript.prs.slide_width = Inches 13.333 ∧
    FinalScript.prs.slide_height = Inches 7.5 ∧
    FinalScript.ops.takeWhile (fun op => !op.isAddSlide)
      = [.set_slide_width (Inches 13.333), .set_slide_height (Inches 7.5)] ∧
    (FinalScript.ops.dropWhile (fun op => !op.isAddSlide)).all
      (fun op => !op.isSizeOp) = true ∧
    ImprovedScript.prs.slide_width = Inches 13.333 ∧
    ImprovedScript.prs.slide_height = Inches 7.5 ∧
    ImprovedScript.ops.takeWhile (fun op => !op.isAddSlide)
      = [.set_slide_width (Inches 13.333), .set_slide_height (Inches 7.5)] ∧
    (ImprovedScript.ops.dropWhile (fun op => !op.isAddSlide)).all
      (fun op => !op.isSizeOp) = true :=
  ⟨rfl, rfl, rfl, rfl, rfl, rfl, rfl, rfl⟩

/-- C9: in both variants, the first and the twelfth slide use the title
layout (index 0) and slides 2 through 11 use the content layout
(index 1); the exhaustive list shows no other layout is used. -/
theorem layout_usage :
    FinalScript.prs.slides.map Slide.layout_idx = [0, 1, 1, 1, 1, 1, 1, 1, 1, 1, 1, 0] ∧
    ImprovedScript.prs.slides.map Slide.layout_idx = [0, 1, 1, 1, 1, 1, 1, 1, 1, 1, 1, 0] :=
  ⟨rfl, rfl⟩

/-- C3 counterexample: invoking the final script's builder with no prior
output file present and a succeeding save prints four confirmation
lines, not three. -/
theorem final_script_prints_four_lines :
    lookupFile okEnv.fs FinalScript.output_filename = none ∧
    ((FinalScript.create_presentation okEnv).events.filter Event.isPrint).length = 4 ∧
    ((FinalScript.create_presentation okEnv).events.filter Event.isPrint).length ≠ 3 :=
  ⟨rfl, rfl, by decide⟩

/-- C3 amended: invoking either builder with no prior output file
present and a succeeding save results in the script's fixed-name file
appearing in the file system and the script's fixed confirmation lines
printed to standard output: four lines for the final script, three for
the improved script. -/
theorem builder_creates_file_and_prints (env : Env)
    (hok : env.save_error = none)
    (_hf : lookupFile env.fs FinalScript.output_filename = none)
    (_hi : lookupFile env.fs ImprovedScript.output_filename = none) :
    lookupFile (FinalScript.create_presentation env).fs FinalScript.output_filename
      = some (env.serializer FinalScript.prs) ∧
    (FinalScript.create_presentation env).events.filter Event.isPrint
      = FinalScript.stdout_lines.map Event.print_line ∧
    FinalScript.stdout_lines.length = 4 ∧
    lookupFile (ImprovedScript.create_presentation env).fs ImprovedScript.output_filename
      = some (env.serializer ImprovedScript.prs) ∧
    (ImprovedScript.create_presentation env).events.filter Event.isPrint
      = ImprovedScript.stdout_lines.map Event.print_line ∧
    ImprovedScript.stdout_lines.length = 3 := by
  simp only [FinalScript.create_presentation, ImprovedScript.create_presentation,
    runScript, hok]
  exact ⟨lookupFile_setFile_self _ _ _, rfl, rfl,
         lookupFile_setFile_self _ _ _, rfl, rfl⟩

/-- Witness for `builder_creates_file_and_prints` at the concrete
environment `okEnv` (empty file system, succeeding save). -/
theorem builder_creates_file_and_prints_witness :
    lookupFile (FinalScript.create_presentation okEnv).fs FinalScript.output_filename
      = some (okEnv.serializer FinalScript.prs) ∧
    lookupFile (ImprovedScript.create_presentation okEnv).fs ImprovedScript.output_filename
      = some (okEnv.serializer ImprovedScript.prs) :=
  ⟨(builder_creates_file_and_prints okEnv rfl rfl rfl).1,
   (builder_creates_file_and_prints okEnv rfl rfl rfl).2.2.2.1⟩

/-- C4: on a successful run, each variant performs exactly one save,
under its fixed file name; that name then holds the serialized document
(overwriting any previous content), every other name's content is
unchanged, and no file besides the fixed name is created. -/
theorem single_fixed_output_file (env : Env) (hok : env.save_error = none) :
    (FinalScript.create_presentation env).events.filter Event.isSave
      = [.save_attempt FinalScript.output_filename] ∧
    lookupFile (FinalScript.create_presentation env).fs FinalScript.output_filename
      = some (env.serializer FinalScript.prs) ∧
    (∀ m, m ≠ FinalScript.output_filename →
      lookupFile (FinalScript.create_presentation env).fs m = lookupFile env.fs m) ∧
    (∀ m, lookupFile (FinalScript.create_presentation env).fs m ≠ none →
      m = FinalScript.output_filename ∨ lookupFile env.fs m ≠ none) ∧
    (ImprovedScript.create_presentation env).events.filter Event.isSave
      = [.save_attempt ImprovedScript.output_filename] ∧
    lookupFile (ImprovedScript.create_presentation env).fs ImprovedScript.output_filename
      = some (env.serializer ImprovedScript.prs) ∧
    (∀ m, m ≠ ImprovedScript.output_filename →
      lookupFile (ImprovedScript.create_presentation env).fs m = lookupFile env.fs m) ∧
    (∀ m, lookupFile (ImprovedScript.create_presentation env).fs m ≠ none →
      m = ImprovedScript.output_filename ∨ lookupFile env.fs m ≠ none) := by
  simp only [FinalScript.create_presentation, ImprovedScript.create_presentation,
    runScript, hok]
  exact ⟨rfl, lookupFile_setFile_self _ _ _,
         fun m hm => lookupFile_setFile_other _ _ _ _ hm,
         fun m hm => lookupFile_setFile_mem _ _ _ _ hm,
         rfl, lookupFile_setFile_self _ _ _,
         fun m hm => lookupFile_setFile_other _ _ _ _ hm,
         fun m hm => lookupFile_setFile_mem _ _ _ _ hm⟩

/-- Witness for `single_fixed_output_file` at the concrete environment
`okEnv`. -/
theorem single_fixed_output_file_witness :
    (FinalScript.create_presentation okEnv).events.filter Event.isSave
      = [.save_attempt FinalScript.output_filename] ∧
    lookupFile (ImprovedScript.create_presentation okEnv).fs ImprovedScript.output_filename
      = some (okEnv.serializer ImprovedScript.prs) :=
  ⟨(single_fixed_output_file okEnv rfl).1,
   (single_fixed_output_file okEnv rfl).2.2.2.2.2.1⟩

/-- C5: the builder reads no runtime input, environment variable, clock
or randomness, so any two successful runs of the same variant whose
underlying serializer agrees write byte-identical content under the
fixed file name. -/
theorem runs_byte_identical (e1 e2 : Env)
    (hser : e1.serializer = e2.serializer)
    (h1 : e1.save_error = none) (h2 : e2.save_error = none) :
    lookupFile (FinalScript.create_presentation e1).fs FinalScript.output_filename
      = lookupFile (FinalScript.create_presentation e2).fs FinalScript.output_filename ∧
    lookupFile (ImprovedScript.create_presentation e1).fs ImprovedScript.output_filename
      = lookupFile (ImprovedScript.create_presentation e2).fs ImprovedScript.output_filename := by
  simp only [FinalScript.create_presentation, ImprovedScript.create_presentation,
    runScript, h1, h2]
  rw [lookupFile_setFile_self, lookupFile_setFile_self,
      lookupFile_setFile_self, lookupFile_setFile_self, hser]
  exact ⟨rfl, rfl⟩

/-- Witness for `runs_byte_identical` at two concrete environments with
the same serializer but different file systems. -/
theorem runs_byte_identical_witness :
    lookupFile (FinalScript.create_presentation okEnv).fs FinalScript.output_filename
      = lookupFile
          (FinalScript.create_presentation
            { fs := [("other.txt", [1, 2, 3])], serializer := fun _ => [],
              save_error := none }).fs
          FinalScript.output_filename :=
  (runs_byte_identical okEnv
    { fs := [("other.txt", [1, 2, 3])], serializer := fun _ => [], save_error := none }
    rfl rfl rfl).1

/-- C6: neither script handles any error: a save failure propagates
unchanged to the caller, the run ends with that error, the save is
attempted exactly once (no retry), nothing is printed, and the file
system is left as it was (no partial-success result). -/
theorem save_failure_propagates (env : Env) (e : SaveError)
    (herr : env.save_error = some e) :
    (FinalScript.create_presentation env).result = .error e ∧
    (FinalScript.create_presentation env).events
      = [.save_attempt FinalScript.output_filename] ∧
    (FinalScript.create_presentation env).fs = env.fs ∧
    (ImprovedScript.create_presentation env).result = .error e ∧
    (ImprovedScript.create_presentation env).events
      = [.save_attempt ImprovedScript.output_filename] ∧
    (ImprovedScript.create_presentation env).fs = env.fs := by
  simp [FinalScript.create_presentation, ImprovedScript.create_presentation,
    runScript, herr]

/-- Witness for `save_failure_propagates` at the concrete environment
`errEnv`, whose save raises a disk-full error. -/
theorem save_failure_propagates_witness :
    (FinalScript.create_presentation errEnv).result = .error ⟨"disk full"⟩ ∧
    (ImprovedScript.create_presentation errEnv).events
      = [.save_attempt ImprovedScript.output_filename] :=
  ⟨(save_failure_propagates errEnv ⟨"disk full"⟩ rfl).1,
   (save_failure_propagates errEnv ⟨"disk full"⟩ rfl).2.2.2.2.1⟩

/-- C7: on a successful run, `create_presentation` returns Python
`None`, and its event trace is exactly one save of the fixed file name
followed by the status prints; every event is a save or a print. -/
theorem returns_none_with_save_and_print_effects (env : Env)
    (hok : env.save_error = none) :
    (FinalScript.create_presentation env).result = .ok .none ∧
    (FinalScript.create_presentation env).events
      = .save_attempt FinalScript.output_filename
        :: FinalScript.stdout_lines.map Event.print_line ∧
    (∀ ev ∈ (FinalScript.create_presentation env).events,
      ev.isSave = true ∨ ev.isPrint = true) ∧
    (ImprovedScript.create_presentation env).result = .ok .none ∧
    (ImprovedScript.create_presentation env).events
      = .save_attempt ImprovedScript.output_filename
        :: ImprovedScript.stdout_lines.map Event.print_line ∧
    (∀ ev ∈ (ImprovedScript.create_presentation env).events,
      ev.isSave = true ∨ ev.isPrint = true) := by
  simp only [FinalScript.create_presentation, ImprovedScript.create_presentation,
    runScript, hok]
  refine ⟨?_, ?_, ?_, ?_, ?_, ?_⟩ <;> trivial

/-- Witness for `returns_none_with_save_and_print_effects` at the
concrete environment `okEnv`. -/
theorem returns_none_with_save_and_print_effects_witness :
    (FinalScript.create_presentation okEnv).result = .ok .none ∧
    (ImprovedScript.create_presentation okEnv).result = .ok .none :=
  ⟨(returns_none_with_save_and_print_effects okEnv rfl).1,
   (returns_none_with_save_and_print_effects okEnv rfl).2.2.2.1⟩

/-- C10: in both variants the save attempt is the first event of every
run, so every print is strictly after it, and the confirmation lines
are printed exactly when the save completed without raising; a failed
save prints nothing. -/
theorem prints_exactly_after_successful_save (env : Env) :
    (FinalScript.create_presentation env).events.head?
      = some (.save_attempt FinalScript.output_filename) ∧
    (FinalScript.create_presentation env).events.filter Event.isPrint
      = (if env.save_error = none
         then FinalScript.stdout_lines.map Event.print_line else []) ∧
    (ImprovedScript.create_presentation env).events.head?
      = some (.save_attempt ImprovedScript.output_filename) ∧
    (ImprovedScript.create_presentation env).events.filter Event.isPrint
      = (if env.save_error = none
         then ImprovedScript.stdout_lines.map Event.print_line else []) := by
  cases h : env.save_error <;>
    simp only [FinalScript.create_presentation, ImprovedScript.create_presentation,
      runScript, h] <;>
    refine ⟨rfl, ?_, rfl, ?_⟩ <;>
    simp [Event.isPrint, FinalScript.stdout_lines, ImprovedScript.stdout_lines]

/-- Witness for `prints_exactly_after_successful_save` at the concrete
environments `okEnv` and `errEnv`. -/
theorem prints_exactly_after_successful_save_witness :
    (FinalScript.create_presentation okEnv).events.head?
      = some (.save_attempt FinalScript.output_filename) ∧
    (ImprovedScript.create_presentation errEnv).events.filter Event.isPrint
      = (if errEnv.save_error = none
         then ImprovedScript.stdout_lines.map Event.print_line else []) :=
  ⟨(prints_exactly_after_successful_save okEnv).1,
   (prints_exactly_after_successful_save errEnv).2.2.2⟩
